import Mathlib

/-!
Verification of the QueryWeaver memory subsystem and authentication layer.

Shallow embedding of the Python sources:
  api/memory/graphiti_tool.py   (MemoryTool)
  api/memory/memory_manager.py  (MemoryManager)
  api/auth/user_management.py   (token auth)
  api/agents/follow_up_agent.py (FollowUpAgent._format_schema)
  test_refactor.py              (original_format_schema)

External effects (LLM completions, Graphiti / FalkorDB calls, the event
loop) are modelled as explicit outcome parameters: each call site that can
raise or return data from outside the program takes an oracle value
describing what that call did, and the Lean function computes exactly what
the Python control flow does with that outcome.
-/

namespace QueryWeaver

/-- A record returned for a stored Query node
    (fields of the node map built in save_query_memory). -/
structure QueryRec where
  user_query : String
  sql_query : String
  success : Bool
  error : String
  timestamp : String
deriving DecidableEq, Repr

/-- A Python value as it appears in the dictionaries built by the memory
    tool: strings, booleans, lists of query records, or an exception
    object handed back by asyncio.gather(..., return_exceptions=True). -/
inductive PyVal where
  | pyStr (s : String)
  | pyBool (b : Bool)
  | pyList (xs : List QueryRec)
  | pyExc (e : String)
deriving DecidableEq, Repr

/-- Python dict.get(k, default) over a string-valued dict modelled as an
    association list. -/
def pyDictGet (d : List (String × String)) (k : String) (dflt : String) : String :=
  match d.find? (fun p => p.fst == k) with
  | some p => p.snd
  | none => dflt

/-! ## MemoryTool.search_memories (graphiti_tool.py lines 405-442) -/

/-- Outcome of `asyncio.gather(user_summary_task, database_facts_task,
    queries_task, return_exceptions=True)`: either the three slot values
    (an exception raised inside a task is returned as a value because of
    return_exceptions=True), or the gather call itself raised. -/
inductive GatherOutcome where
  | ok (userSummary dbFacts similarQueries : PyVal)
  | raised (e : String)
deriving DecidableEq

/-- MemoryTool.search_memories: build the result dict from the gather
    outcome; on an exception from the gather the except branch returns a
    dict holding only user_summary and database_facts. -/
def search_memories (g : GatherOutcome) : List (String × PyVal) :=
  match g with
  | .ok us df sq =>
      [("user_summary", us), ("database_facts", df), ("similar_queries", sq)]
  | .raised _ =>
      [("user_summary", PyVal.pyStr ""), ("database_facts", PyVal.pyStr "")]

/-! ## MemoryTool.__init__ database naming (graphiti_tool.py lines 37-52) -/

/-- The FalkorDB database name the MemoryTool driver is constructed on:
    f"\x7buser_id\x7d-memory". -/
def memoryDbName (user_id : String) : String := user_id ++ "-memory"

/-! ## MemoryTool.summarize_conversation (graphiti_tool.py lines 444-521) -/

/-- The single question/answer exchange passed to
    MemoryTool.summarize_conversation; empty string stands for a missing
    or falsy dict entry. -/
structure Conversation where
  question : String
  generated_sql : String
  error : String
  answer : String
  success : Bool
deriving DecidableEq

/-- The conv_text string built at the top of summarize_conversation. -/
def conv_text (c : Conversation) : String :=
  "User: " ++ c.question ++ "\n"
    ++ (if c.generated_sql ≠ "" then "SQL: " ++ c.generated_sql ++ "\n" else "")
    ++ (if c.error ≠ "" then "Error: " ++ c.error ++ "\n" else "")
    ++ (if c.answer ≠ "" then "Assistant: " ++ c.answer ++ "\n" else "")
    ++ "Execution Status: " ++ (if c.success then "Success" else "Failed") ++ "\n"
    ++ "\n"

/-- Outcome of the litellm completion call followed by JSON parsing of its
    content: .error if the completion call, the content access, or
    json.loads raised; .ok with the parsed JSON object (as an association
    list) otherwise. -/
abbrev LLMParseOutcome := Except Unit (List (String × String))

/-- MemoryTool.summarize_conversation: returns the two-key dict built from
    the parsed LLM response, or the fixed two-empty-strings dict when
    anything in the try block raised.  The conversation argument only
    feeds the prompt, so the except-branch result does not depend on it. -/
def summarize_conversation (_c : Conversation) (llm : LLMParseOutcome) :
    List (String × String) :=
  match llm with
  | .ok result =>
      [("database_summary", pyDictGet result "database_summary" ""),
       ("personal_memory", pyDictGet result "personal_memory" "")]
  | .error _ =>
      [("database_summary", ""), ("personal_memory", "")]

/-! ## Authentication layer (api/auth/user_management.py) -/

/-- Properties of a graph node, as returned by the Organizations graph
    (node.properties with .get semantics). -/
structure NodeProps where
  props : List (String × String)
deriving DecidableEq

/-- A Token node in the Organizations graph: id, created_at and
    expires_at in epoch milliseconds. -/
structure TokenNode where
  id : String
  created_at : Nat
  expires_at : Nat
deriving DecidableEq, Repr

/-- The Identity node a token hangs off (the fields _get_user_info
    returns). -/
structure IdentityRec where
  email : String
  name : String
  picture : String
deriving DecidableEq, Repr

/-- The Organizations graph restricted to what the token queries touch:
    the (Identity)-[:HAS_TOKEN]->(Token) pairs. -/
structure OrgGraph where
  tokens : List (TokenNode × IdentityRec)
deriving DecidableEq

/-- The info dict _get_user_info returns for a valid token. -/
structure CookieInfo where
  email : String
  name : String
  picture : String
deriving DecidableEq, Repr

/-- _get_user_info (user_management.py lines 22-54): match the token by id,
    return the identity fields when timestamp() <= t.expires_at, else
    None.  `now` is the value of timestamp() at query time; a query error
    also yields None (same observable result as the not-found case). -/
def get_user_info (g : OrgGraph) (now : Nat) (api_token : String) :
    Option CookieInfo :=
  match g.tokens.find? (fun p => p.fst.id == api_token) with
  | none => none
  | some p =>
      if now ≤ p.fst.expires_at then
        some { email := p.snd.email, name := p.snd.name, picture := p.snd.picture }
      else
        none

/-- The ON CREATE SET clause for the Token node inside the MERGE query of
    ensure_user_in_organizations (lines 137-140):
    created_at = timestamp(), expires_at = timestamp() + 86400000, with
    timestamp() the (query-constant) transaction time. -/
def createTokenNode (api_token : String) (now : Nat) : TokenNode :=
  { id := api_token, created_at := now, expires_at := now + 86400000 }

/-- Python truthiness of an optional string (None and "" are falsy). -/
def pyTruthy (o : Option String) : Bool :=
  match o with
  | none => false
  | some s => s ≠ ""

/-- The parts of a FastAPI Request the auth layer reads. -/
structure Request where
  authorization : Option String
  cookie_api_token : Option String
  query_api_token : Option String
deriving DecidableEq

/-- validate_user (lines 231-253): take the api_token from the cookie,
    falling back to the query parameter when the cookie is missing or
    falsy, and look it up with _get_user_info when truthy. -/
def validate_user (g : OrgGraph) (now : Nat) (req : Request) :
    Option CookieInfo :=
  let tok0 := req.cookie_api_token
  let tok := if pyTruthy tok0 then tok0 else req.query_api_token
  if pyTruthy tok then get_user_info g now (tok.getD "") else none

/-- The user_info dict validate_api_token_user is documented to build for
    a Bearer token (its construction at lines 291-297 is unreachable, see
    validate_api_token_user below). -/
structure UserInfo where
  id : String
  email : String
  name : String
  picture : String
  provider : String
deriving DecidableEq, Repr

/-- Outcome of a graph query: the rows, or an exception. -/
inductive GraphOutcome (α : Type) where
  | ok (a : α)
  | raised
deriving DecidableEq

/-- validate_api_token_user (lines 255-305).  `validateApiToken` is the
    token-hash lookup from api.routes.tokens (external to this module's
    control flow): it yields the user email or a falsy value.  After that
    lookup succeeds, line 280 calls organizations_graph.query WITHOUT
    await — unlike every other query call site in this file, which awaits
    this same method on the same asyncio FalkorDB graph objects (the
    shared db is also handed to graphiti_core's FalkorDriver, which
    requires the asyncio client) — so the call returns a coroutine, the
    result.result_set access at line 282 raises AttributeError, and the
    except branch at line 303 returns (None, False).  The user_info
    construction at lines 282-299 is unreachable, so the function returns
    None for every token. -/
def validate_api_token_user (validateApiToken : String → Option String)
    (token : String) : Option UserInfo :=
  if token = "" then none
  else
    match validateApiToken token with
    | none => none
    | some user_email =>
      if user_email = "" then none
      else none

/-! ### base64.b64encode, used for the cookie-path user_id -/

/-- The standard base64 alphabet as a character list. -/
def base64Alphabet : List Char :=
  "ABCDEFGHIJKLMNOPQRSTUVWXYZabcdefghijklmnopqrstuvwxyz0123456789+/".toList

/-- The base64 digit for a 6-bit value. -/
def b64Char (n : Nat) : Char := base64Alphabet.getD n 'A'

/-- Standard base64 of a byte list (values 0..255), with = padding. -/
def base64EncodeBytes : List Nat → String
  | [] => ""
  | [a] =>
      String.mk [b64Char (a / 4), b64Char (a % 4 * 16), '=', '=']
  | [a, b] =>
      String.mk [b64Char (a / 4), b64Char (a % 4 * 16 + b / 16),
                 b64Char (b % 16 * 4), '=']
  | a :: b :: c :: rest =>
      String.mk [b64Char (a / 4), b64Char (a % 4 * 16 + b / 16),
                 b64Char (b % 16 * 4 + c / 64), b64Char (c % 64)]
        ++ base64EncodeBytes rest

/-- UTF-8 bytes of one character (str.encode() semantics). -/
def utf8Bytes (c : Char) : List Nat :=
  let n := c.toNat
  if n < 128 then [n]
  else if n < 2048 then [192 + n / 64, 128 + n % 64]
  else if n < 65536 then [224 + n / 4096, 128 + n / 64 % 64, 128 + n % 64]
  else [240 + n / 262144, 128 + n / 4096 % 64, 128 + n / 64 % 64, 128 + n % 64]

/-- base64.b64encode(s.encode()).decode(): base64 over the UTF-8 bytes. -/
def base64Encode (s : String) : String :=
  base64EncodeBytes (s.data.foldr (fun c acc => utf8Bytes c ++ acc) [])

/-! ### token_required (lines 308-371) -/

/-- Lines 318-320: extract the token from an Authorization header of the
    form "Bearer <t>" (a missing or non-Bearer header yields none).
    auth_header.startswith("Bearer ") and auth_header[7:] are modelled on
    the character list (Python strings index by character). -/
def bearerToken (req : Request) : Option String :=
  match req.authorization with
  | some h =>
      if "Bearer ".data.isPrefixOf h.data then some (String.mk (h.data.drop 7))
      else none
  | none => none

/-- What the token_required wrapper does with a request: proceed to the
    wrapped handler with request.state.user_id and request.state.user_info
    set, or raise HTTPException(status, detail). -/
inductive AuthResult where
  | proceed (user_id : String) (info : UserInfo ⊕ CookieInfo)
  | httpError (statusCode : Nat) (detail : String)
deriving DecidableEq

/-- The OAuth-session fallback half of the wrapper (lines 336-360):
    validate_user, retried once, then user_id = base64(email). -/
def oauth_fallback (g : OrgGraph) (now : Nat) (req : Request) : AuthResult :=
  match validate_user g now req with
  | none =>
      match validate_user g now req with
      | none =>
          .httpError 401 "Unauthorized - Please log in or provide a valid API token"
      | some info =>
          let uid := base64Encode info.email
          if uid = "" then .httpError 401 "Unauthorized - Invalid user"
          else .proceed uid (.inr info)
  | some info =>
      let uid := base64Encode info.email
      if uid = "" then .httpError 401 "Unauthorized - Invalid user"
      else .proceed uid (.inr info)

/-- token_required wrapper: try Bearer API-token auth first; when it
    authenticates, attach the token user's id (401 when that id is
    falsy); otherwise fall back to the cookie / query-parameter session
    path. -/
def token_required (validateApiToken : String → Option String)
    (g : OrgGraph) (now : Nat) (req : Request) : AuthResult :=
  match (bearerToken req).bind (validate_api_token_user validateApiToken) with
  | some ui =>
      if ui.id = "" then .httpError 401 "Unauthorized - Invalid token user"
      else .proceed ui.id (.inl ui)
  | none => oauth_fallback g now req

/-! ## ensure_user_in_organizations (user_management.py lines 77-193) -/

/-- One result row of the MERGE query: the identity and user nodes plus
    the two boolean flags it RETURNs. -/
structure MergeRow where
  identity : NodeProps
  user : NodeProps
  is_new_identity : Bool
  had_other_identities : Bool
deriving DecidableEq

/-- The observable run of ensure_user_in_organizations: the returned
    (is_new_user, user_info) pair and how many graph queries were issued
    on the way. -/
structure EnsureRun where
  ret : Bool × Option (NodeProps × NodeProps)
  queriesIssued : Nat
deriving DecidableEq

/-- ensure_user_in_organizations: the three validation gates (required
    parameters, email contains both @ and ., provider in the allow-list)
    reject with (False, None) before any graph query; only then is the
    single MERGE query issued, whose result row decides the return pair.
    `mergeResult` is the outcome of that query (ok none models an empty
    result_set; raised models any exception, both except branches
    returning (False, None)). -/
def ensure_user_in_organizations
    (provider_user_id email _name provider _api_token : String)
    (_picture : Option String)
    (mergeResult : GraphOutcome (Option MergeRow)) : EnsureRun :=
  if provider_user_id = "" ∨ email = "" ∨ provider = "" then
    { ret := (false, none), queriesIssued := 0 }
  else if ¬ ('@' ∈ email.data) ∨ ¬ ('.' ∈ email.data) then
    { ret := (false, none), queriesIssued := 0 }
  else if ¬ (provider = "google" ∨ provider = "github") then
    { ret := (false, none), queriesIssued := 0 }
  else
    match mergeResult with
    | .raised => { ret := (false, none), queriesIssued := 1 }
    | .ok none => { ret := (false, none), queriesIssued := 1 }
    | .ok (some row) =>
        if row.is_new_identity then
          { ret := (true, some (row.identity, row.user)), queriesIssued := 1 }
        else
          { ret := (false, some (row.identity, row.user)), queriesIssued := 1 }

/-! ## MemoryTool.add_new_memory (graphiti_tool.py lines 139-164) -/

/-- An episodic write issued through graphiti_client.add_episode. -/
structure Episode where
  name : String
  episode_body : String
  source_description : String
deriving DecidableEq, Repr

/-- The Database_Summary episode written for a non-empty database
    summary; `ts` is datetime.now().strftime of the write. -/
def databaseSummaryEpisode (user_id database_name ts summary : String) : Episode :=
  { name := "Database_Summary_" ++ user_id ++ "_" ++ database_name ++ "_" ++ ts,
    episode_body := "User: " ++ user_id ++ "\nDatabase: " ++ database_name
      ++ "\nConversation: " ++ summary,
    source_description := "User: " ++ user_id
      ++ " conversation with the Database: " ++ database_name }

/-- The Personal_Memory episode written for a non-empty personal memory. -/
def personalMemoryEpisode (user_id ts memory : String) : Episode :=
  { name := "Personal_Memory_" ++ user_id ++ "_" ++ ts,
    episode_body := "User: " ++ user_id ++ "\nPersonal Memory: " ++ memory,
    source_description := "Personal memory for user " ++ user_id }

/-- MemoryTool.add_new_memory: summarize the conversation, then write the
    Database_Summary episode when database_summary is truthy and the
    Personal_Memory episode when personal_memory is truthy; the returned
    list is every add_episode call it performs, in order. -/
def add_new_memory (user_id graph_id ts : String) (c : Conversation)
    (llm : LLMParseOutcome) : List Episode :=
  let analysis := summarize_conversation c llm
  let database_summary := pyDictGet analysis "database_summary" ""
  let personal_memory := pyDictGet analysis "personal_memory" ""
  (if database_summary ≠ "" then
      [databaseSummaryEpisode user_id graph_id ts database_summary]
    else []) ++
  (if personal_memory ≠ "" then
      [personalMemoryEpisode user_id ts personal_memory]
    else [])

/-! ## MemoryManager.switch_database (memory_manager.py lines 59-77) -/

/-- Outcome of an awaited call that can raise. -/
inductive StepOutcome where
  | ok
  | raised
deriving DecidableEq

/-- The MemoryManager state switch_database touches. -/
structure MMState where
  current_database : Option String
deriving DecidableEq

/-- MemoryManager.switch_database: set current_database, then ensure the
    database node; the success path falls off the end (returns None), the
    except path returns False.  The result is the new state and the
    Optional[bool] Python return value. -/
def switch_database (_st : MMState) (database_name : String)
    (ensureNode : StepOutcome) : MMState × Option Bool :=
  let st2 : MMState := { current_database := some database_name }
  match ensureNode with
  | .ok => (st2, none)
  | .raised => (st2, some false)

/-! ## MemoryTool.retrieve_similar_queries (graphiti_tool.py lines 240-304) -/

/-- Outcome of the node search for "Database <graph_id>": raised, found
    with the node uuid, or no node with that exact name. -/
inductive NodeSearchOutcome where
  | raised
  | found (uuid : String)
  | notFound
deriving DecidableEq

/-- Outcome of executing the vector-search Cypher statement: raised, or
    the matched rows before the trailing LIMIT clause is applied. -/
inductive CypherOutcome where
  | raised
  | ok (rows : List QueryRec)
deriving DecidableEq

/-- What retrieve_similar_queries hands back to Python callers: either
    the boolean False or a list. -/
inductive SimilarQueriesResult where
  | pybool (b : Bool)
  | pylist (xs : List QueryRec)
deriving DecidableEq

/-- MemoryTool.retrieve_similar_queries: returns False when no node named
    "Database <graph_id>" is found, [] when the node search or the
    embedding call raises (outer except) or the Cypher execution raises
    (inner except), and otherwise the rows of the vector-search query,
    whose LIMIT clause caps them at `limit`. -/
def retrieve_similar_queries (nodeSearch : NodeSearchOutcome)
    (embedRaises : Bool) (cypher : CypherOutcome) (limit : Nat) :
    SimilarQueriesResult :=
  match nodeSearch with
  | .raised => .pylist []
  | .notFound => .pybool false
  | .found _ =>
      if embedRaises then .pylist []
      else
        match cypher with
        | .raised => .pylist []
        | .ok rows => .pylist (rows.take limit)

/-! ## Schema formatting (follow_up_agent.py lines 36-90 and
    test_refactor.py lines 19-61) -/

/-- A column dict in the documented schema shape; a missing dataType or
    keyType key is None (printed "None" by the f-string), a missing
    columnName or description defaults to "", a missing nullable to
    False. -/
structure Column where
  columnName : String
  dataType : Option String
  description : String
  keyType : Option String
  nullable : Bool
deriving DecidableEq

/-- A foreign-key entry: fk_info.get of column, referenced_table and
    referenced_column, each defaulting to "". -/
structure FKInfo where
  column : String
  referenced_table : String
  referenced_column : String
deriving DecidableEq

/-- The foreign_keys slot: a dict (with its entries in iteration order)
    or some non-dict value, which the isinstance check skips. -/
inductive FKData where
  | dict (entries : List (String × FKInfo))
  | nonDict
deriving DecidableEq

/-- One table entry [table_name, table_description, foreign_keys,
    columns]. -/
structure TableInfo where
  table_name : String
  table_description : String
  foreign_keys : FKData
  columns : List Column
deriving DecidableEq

/-- Python sep.join(parts). -/
def pyJoin (sep : String) : List String → String
  | [] => ""
  | [a] => a
  | a :: rest => a ++ sep ++ pyJoin sep rest

/-- str(x) of an optional string: None prints as "None". -/
def pyStrOpt (o : Option String) : String :=
  match o with
  | none => "None"
  | some s => s

/-- str(b) of a Python bool. -/
def pyStrBool (b : Bool) : String :=
  if b then "True" else "False"

/-- One column line of FollowUpAgent._format_schema (lines 61-75). -/
def formatColumnFollowUp (c : Column) : String :=
  let key_info :=
    if c.keyType = some "PRI" then ", PRIMARY KEY"
    else if c.keyType = some "FK" then ", FOREIGN KEY"
    else ""
  "  - " ++ c.columnName ++ " (" ++ pyStrOpt c.dataType ++ "," ++ key_info
    ++ "," ++ pyStrOpt c.keyType ++ "," ++ pyStrBool c.nullable ++ "): "
    ++ c.description

/-- The foreign-key block of FollowUpAgent._format_schema (lines 77-86). -/
def formatFKFollowUp (fk : FKData) : String :=
  match fk with
  | .nonDict => ""
  | .dict [] => ""
  | .dict entries =>
      "  Foreign Keys:\n" ++ String.join (entries.map (fun e =>
        "  - " ++ e.fst ++ ": " ++ e.snd.column ++ " references "
          ++ e.snd.referenced_table ++ "." ++ e.snd.referenced_column ++ "\n"))

/-- One table block of FollowUpAgent._format_schema (lines 51-88). -/
def formatTableFollowUp (t : TableInfo) : String :=
  "Table: " ++ t.table_name ++ " - " ++ t.table_description ++ "\n"
    ++ String.join (t.columns.map (fun c => formatColumnFollowUp c ++ "\n"))
    ++ formatFKFollowUp t.foreign_keys

/-- FollowUpAgent._format_schema: empty schema short-circuits to
    "No relevant tables found"; otherwise the table blocks joined by
    "\n". -/
def format_schema (schema_data : List TableInfo) : String :=
  if schema_data = [] then "No relevant tables found"
  else pyJoin "\n" (schema_data.map formatTableFollowUp)

/-- One column line of original_format_schema (test_refactor.py lines
    32-46). -/
def formatColumnOriginal (c : Column) : String :=
  let key_info :=
    if c.keyType = some "PRI" then ", PRIMARY KEY"
    else if c.keyType = some "FK" then ", FOREIGN KEY"
    else ""
  "  - " ++ c.columnName ++ " (" ++ pyStrOpt c.dataType ++ "," ++ key_info
    ++ "," ++ pyStrOpt c.keyType ++ "," ++ pyStrBool c.nullable ++ "): "
    ++ c.description

/-- The foreign-key block of original_format_schema (lines 48-57). -/
def formatFKOriginal (fk : FKData) : String :=
  match fk with
  | .nonDict => ""
  | .dict [] => ""
  | .dict entries =>
      "  Foreign Keys:\n" ++ String.join (entries.map (fun e =>
        "  - " ++ e.fst ++ ": " ++ e.snd.column ++ " references "
          ++ e.snd.referenced_table ++ "." ++ e.snd.referenced_column ++ "\n"))

/-- One table block of original_format_schema (lines 22-59). -/
def formatTableOriginal (t : TableInfo) : String :=
  "Table: " ++ t.table_name ++ " - " ++ t.table_description ++ "\n"
    ++ String.join (t.columns.map (fun c => formatColumnOriginal c ++ "\n"))
    ++ formatFKOriginal t.foreign_keys

/-- original_format_schema (test_refactor.py): the table blocks joined by
    "\n", with no empty-schema guard. -/
def original_format_schema (schema_data : List TableInfo) : String :=
  pyJoin "\n" (schema_data.map formatTableOriginal)

/-! ## Shared helper lemmas -/

/-- The head character of an appended string is the head character of its
    left part. -/
theorem data_head?_append (a b : String) (ch : Char)
    (h : a.data.head? = some ch) : (a ++ b).data.head? = some ch := by
  have hne : a.data ≠ [] := by
    intro hn
    rw [hn] at h
    simp at h
  rw [String.data_append, List.head?_append_of_ne_nil _ hne]
  exact h

/-! ## Claims -/

/-- Claim C1 counterexample: when the asyncio.gather call itself raises,
    the dict returned by search_memories has no "similar_queries" key, so
    the claim that all three keys are present on every path is false. -/
theorem search_memories_raised_missing_key :
    "similar_queries" ∉
      (search_memories (GatherOutcome.raised "boom")).map Prod.fst := by
  decide

/-- Claim C1 (amended): search_memories returns the dict with all three
    keys holding the respective gather results whenever the gather call
    returns (exceptions raised inside a retrieval are delivered as slot
    values because of return_exceptions=True); when the gather call itself
    raises, it returns a dict holding only the user_summary and
    database_facts keys, both mapped to the empty string. -/
theorem search_memories_result (us df sq : PyVal) (e : String) :
    search_memories (GatherOutcome.ok us df sq) =
      [("user_summary", us), ("database_facts", df), ("similar_queries", sq)] ∧
    search_memories (GatherOutcome.raised e) =
      [("user_summary", PyVal.pyStr ""), ("database_facts", PyVal.pyStr "")] :=
  ⟨rfl, rfl⟩

/-- Claim C2: MemoryTool.__init__ builds its FalkorDB driver on the
    database named user_id ++ "-memory"; this naming map is injective, so
    two distinct user ids always operate on distinct memory graphs, and
    it is a pure function of the user id, so the same user id maps to the
    same graph in every session. -/
theorem memoryDbName_injective (u1 u2 : String) :
    memoryDbName u1 = memoryDbName u2 ↔ u1 = u2 := by
  constructor
  · intro h
    have hd := congrArg String.data h
    simp only [memoryDbName, String.data_append] at hd
    exact String.ext (List.append_cancel_right hd)
  · intro h
    rw [h]

/-- Claim C3: summarize_conversation returns a dict with exactly the two
    keys database_summary and personal_memory in both its branches, and
    when the completion call or the JSON parsing of its content raises,
    the result maps both keys to the empty string, a fixed constant
    independent of the conversation passed in. -/
theorem summarize_conversation_shape (c : Conversation)
    (llm : LLMParseOutcome) :
    (summarize_conversation c llm).map Prod.fst =
      ["database_summary", "personal_memory"] ∧
    (∀ c2 : Conversation, summarize_conversation c2 (Except.error ()) =
      [("database_summary", ""), ("personal_memory", "")]) := by
  refine ⟨?_, fun c2 => rfl⟩
  cases llm <;> rfl

/-- Claim C8: switch_database never returns True for any database name:
    it sets current_database, then returns None (falling off the end)
    exactly when the ensure-database-node call succeeds and False exactly
    when that call raises. -/
theorem switch_database_result (st : MMState) (nm : String)
    (o : StepOutcome) :
    (switch_database st nm o).2 ≠ some true ∧
    ((switch_database st nm o).2 = some false ↔ o = StepOutcome.raised) ∧
    ((switch_database st nm o).2 = none ↔ o = StepOutcome.ok) ∧
    (switch_database st nm o).1.current_database = some nm := by
  cases o <;> simp [switch_database]

/-- Claim C5: ensure_user_in_organizations returns (False, None) and
    issues no graph query whenever a precondition fails (a required
    parameter empty, the email missing '@' or '.', or the provider not
    google or github); inputs passing all three checks reach the single
    MERGE query. -/
theorem ensure_user_gate (pid email nm provider tok : String)
    (pic : Option String) (mr : GraphOutcome (Option MergeRow)) :
    ((pid = "" ∨ email = "" ∨ provider = "" ∨ ¬ ('@' ∈ email.data) ∨
        ¬ ('.' ∈ email.data) ∨ ¬ (provider = "google" ∨ provider = "github")) →
      ensure_user_in_organizations pid email nm provider tok pic mr =
        { ret := (false, none), queriesIssued := 0 }) ∧
    ((pid ≠ "" ∧ email ≠ "" ∧ provider ≠ "" ∧ '@' ∈ email.data ∧
        '.' ∈ email.data ∧ (provider = "google" ∨ provider = "github")) →
      (ensure_user_in_organizations pid email nm provider tok pic mr).queriesIssued
        = 1) := by
  unfold ensure_user_in_organizations
  constructor
  · intro h
    split_ifs with h1 h2 h3
    · rfl
    · rfl
    · exfalso
      push_neg at h1 h2
      rcases h with h | h | h | h | h | h
      · exact h1.1 h
      · exact h1.2.1 h
      · exact h1.2.2 h
      · exact h h2.1
      · exact h h2.2
      · exact h h3
    · rfl
  · rintro ⟨hp, he, hpr, ha, hd, hprov⟩
    split_ifs with h1 h2
    · tauto
    · tauto
    · cases mr with
      | raised => rfl
      | ok a =>
          cases a with
          | none => rfl
          | some row =>
              by_cases hni : row.is_new_identity <;> simp [hni]

/-- Claim C5 witness: a run with an invalid email is rejected with no
    query, and a fully valid run issues exactly one query. -/
theorem ensure_user_gate_witness :
    ensure_user_in_organizations "id1" "not-an-email" "N" "google" "t"
        none (GraphOutcome.ok none) =
      { ret := (false, none), queriesIssued := 0 } ∧
    (ensure_user_in_organizations "id1" "a@b.c" "N" "google" "t"
        none (GraphOutcome.ok none)).queriesIssued = 1 :=
  ⟨(ensure_user_gate "id1" "not-an-email" "N" "google" "t" none
      (GraphOutcome.ok none)).1 (by decide),
   (ensure_user_gate "id1" "a@b.c" "N" "google" "t" none
      (GraphOutcome.ok none)).2 (by refine ⟨?_, ?_, ?_, ?_, ?_, ?_⟩ <;> decide)⟩

/-- The Database_Summary episode name starts with the character D. -/
theorem databaseSummaryEpisode_head (u g ts d : String) :
    (databaseSummaryEpisode u g ts d).name.data.head? = some 'D' :=
  data_head?_append _ _ _ (data_head?_append _ _ _ (data_head?_append _ _ _
    (data_head?_append _ _ _ (data_head?_append _ _ _ (by decide)))))

/-- The Personal_Memory episode name starts with the character P. -/
theorem personalMemoryEpisode_head (u ts p : String) :
    (personalMemoryEpisode u ts p).name.data.head? = some 'P' :=
  data_head?_append _ _ _ (data_head?_append _ _ _ (data_head?_append _ _ _
    (by decide)))

/-- The two episode kinds are never the same write (their names start
    with different characters). -/
theorem episode_kinds_ne (u g ts ts2 d p : String) :
    databaseSummaryEpisode u g ts d ≠ personalMemoryEpisode u ts2 p := by
  intro h
  have h1 := databaseSummaryEpisode_head u g ts d
  have h2 := personalMemoryEpisode_head u ts2 p
  rw [h, h2] at h1
  simp at h1

/-- Symmetric orientation of episode_kinds_ne, for rewriting. -/
theorem episode_kinds_ne' (u g ts ts2 d p : String) :
    personalMemoryEpisode u ts2 p ≠ databaseSummaryEpisode u g ts d :=
  Ne.symm (episode_kinds_ne u g ts ts2 d p)

/-- Claim C6: add_new_memory writes the Database_Summary episode iff the
    LLM analysis produced a non-empty database_summary, writes the
    Personal_Memory episode iff it produced a non-empty personal_memory,
    performs no other writes, and writes nothing when both summaries are
    empty. -/
theorem add_new_memory_writes (u g ts : String) (c : Conversation)
    (llm : LLMParseOutcome) :
    (databaseSummaryEpisode u g ts
        (pyDictGet (summarize_conversation c llm) "database_summary" "") ∈
          add_new_memory u g ts c llm ↔
      pyDictGet (summarize_conversation c llm) "database_summary" "" ≠ "") ∧
    (personalMemoryEpisode u ts
        (pyDictGet (summarize_conversation c llm) "personal_memory" "") ∈
          add_new_memory u g ts c llm ↔
      pyDictGet (summarize_conversation c llm) "personal_memory" "" ≠ "") ∧
    (∀ e ∈ add_new_memory u g ts c llm,
      e = databaseSummaryEpisode u g ts
            (pyDictGet (summarize_conversation c llm) "database_summary" "") ∨
      e = personalMemoryEpisode u ts
            (pyDictGet (summarize_conversation c llm) "personal_memory" "")) ∧
    (pyDictGet (summarize_conversation c llm) "database_summary" "" = "" →
      pyDictGet (summarize_conversation c llm) "personal_memory" "" = "" →
      add_new_memory u g ts c llm = []) := by
  by_cases hd : pyDictGet (summarize_conversation c llm) "database_summary" "" = "" <;>
    by_cases hp : pyDictGet (summarize_conversation c llm) "personal_memory" "" = "" <;>
    simp [add_new_memory, hd, hp, episode_kinds_ne, episode_kinds_ne']

/-- Claim C6 witness: a parsed analysis with a non-empty database summary
    and empty personal memory writes exactly the Database_Summary
    episode, and an analysis with both empty writes nothing. -/
theorem add_new_memory_writes_witness :
    (databaseSummaryEpisode "u1" "g1" "t1"
        (pyDictGet (summarize_conversation ⟨"q", "", "", "", true⟩
          (Except.ok [("database_summary", "cx"), ("personal_memory", "")]))
          "database_summary" "") ∈
      add_new_memory "u1" "g1" "t1" ⟨"q", "", "", "", true⟩
        (Except.ok [("database_summary", "cx"), ("personal_memory", "")])) ∧
    add_new_memory "u1" "g1" "t1" ⟨"q", "", "", "", true⟩
        (Except.error ()) = [] :=
  ⟨(add_new_memory_writes "u1" "g1" "t1" ⟨"q", "", "", "", true⟩
      (Except.ok [("database_summary", "cx"), ("personal_memory", "")])).1.mpr
      (by decide),
   (add_new_memory_writes "u1" "g1" "t1" ⟨"q", "", "", "", true⟩
      (Except.error ())).2.2.2 rfl rfl⟩

/-- Claim C9: retrieve_similar_queries returns the boolean False when no
    node named "Database <graph_id>" is found, the empty list when the
    node search, the embedding call or the vector-search Cypher execution
    raises, and otherwise a list of at most limit query records (the
    LIMIT clause of the executed statement). -/
theorem retrieve_similar_queries_result (ns : NodeSearchOutcome)
    (er : Bool) (cy : CypherOutcome) (limit : Nat) :
    (ns = NodeSearchOutcome.notFound →
      retrieve_similar_queries ns er cy limit =
        SimilarQueriesResult.pybool false) ∧
    ((ns = NodeSearchOutcome.raised ∨
        (∃ u, ns = NodeSearchOutcome.found u ∧ er = true) ∨
        (∃ u, ns = NodeSearchOutcome.found u ∧ cy = CypherOutcome.raised)) →
      retrieve_similar_queries ns er cy limit =
        SimilarQueriesResult.pylist []) ∧
    (∀ u rows, ns = NodeSearchOutcome.found u → er = false →
      cy = CypherOutcome.ok rows →
      retrieve_similar_queries ns er cy limit =
        SimilarQueriesResult.pylist (rows.take limit) ∧
      (rows.take limit).length ≤ limit) := by
  refine ⟨?_, ?_, ?_⟩
  · intro h
    subst h
    rfl
  · rintro (h | ⟨u, h, he⟩ | ⟨u, h, hc⟩)
    · subst h
      rfl
    · subst h
      subst he
      rfl
    · subst h
      subst hc
      cases er <;> rfl
  · intro u rows h1 h2 h3
    subst h1
    subst h2
    subst h3
    refine ⟨rfl, ?_⟩
    rw [List.length_take]
    exact min_le_left _ _

/-- Claim C9 witness: concrete runs hitting the not-found, the raising
    and the successful branch, the last with limit 1 over two stored
    records. -/
theorem retrieve_similar_queries_result_witness :
    retrieve_similar_queries NodeSearchOutcome.notFound false
        (CypherOutcome.ok []) 5 = SimilarQueriesResult.pybool false ∧
    retrieve_similar_queries (NodeSearchOutcome.found "u") true
        (CypherOutcome.ok []) 5 = SimilarQueriesResult.pylist [] ∧
    retrieve_similar_queries (NodeSearchOutcome.found "u") false
        (CypherOutcome.ok [⟨"q", "s", true, "", "t"⟩, ⟨"q2", "s2", false, "e", "t2"⟩]) 1 =
      SimilarQueriesResult.pylist
        ([⟨"q", "s", true, "", "t"⟩, ⟨"q2", "s2", false, "e", "t2"⟩].take 1) :=
  ⟨(retrieve_similar_queries_result NodeSearchOutcome.notFound false
      (CypherOutcome.ok []) 5).1 rfl,
   (retrieve_similar_queries_result (NodeSearchOutcome.found "u") true
      (CypherOutcome.ok []) 5).2.1 (Or.inr (Or.inl ⟨"u", rfl, rfl⟩)),
   ((retrieve_similar_queries_result (NodeSearchOutcome.found "u") false
      (CypherOutcome.ok [⟨"q", "s", true, "", "t"⟩, ⟨"q2", "s2", false, "e", "t2"⟩]) 1).2.2
      "u" _ rfl rfl rfl).1⟩

/-- Claim C10: every token node written by the MERGE query's ON CREATE
    clause satisfies expires_at = created_at + 86400000, and
    _get_user_info only returns user info while timestamp() <=
    expires_at, so a cookie or query-parameter token older than 24 hours
    never authenticates: looking it up yields None, and validate_user on a
    request carrying it yields None. -/
theorem token_expiry (g : OrgGraph) (now : Nat) (api_token : String)
    (hcreated : ∀ p ∈ g.tokens, ∃ t0, p.fst = createTokenNode p.fst.id t0)
    (hold : ∀ p ∈ g.tokens, p.fst.id = api_token →
      p.fst.created_at + 86400000 < now) :
    (∀ p ∈ g.tokens, p.fst.expires_at = p.fst.created_at + 86400000) ∧
    get_user_info g now api_token = none ∧
    (∀ req : Request, req.cookie_api_token = some api_token →
      req.query_api_token = none → validate_user g now req = none) := by
  have hinv : ∀ p ∈ g.tokens, p.fst.expires_at = p.fst.created_at + 86400000 := by
    intro p hp
    obtain ⟨t0, hpt⟩ := hcreated p hp
    have h1 : p.fst.expires_at = t0 + 86400000 := by rw [hpt]; rfl
    have h2 : p.fst.created_at = t0 := by rw [hpt]; rfl
    omega
  have hnone : get_user_info g now api_token = none := by
    unfold get_user_info
    cases hfind : g.tokens.find? (fun p => p.fst.id == api_token) with
    | none => rfl
    | some p =>
        have hmem := List.mem_of_find?_eq_some hfind
        have hpred := List.find?_some hfind
        have hid : p.fst.id = api_token := by simpa using hpred
        have hexp := hinv p hmem
        have hlt := hold p hmem hid
        have hgt : ¬ (now ≤ p.fst.expires_at) := by omega
        simp [hgt]
  refine ⟨hinv, hnone, ?_⟩
  intro req hc hq
  unfold validate_user
  rw [hc, hq]
  by_cases ht : api_token = ""
  · subst ht
    simp [pyTruthy]
  · simp [pyTruthy, ht, hnone]

/-- Claim C10 witness: a token created at time 0 has expires_at exactly
    86400000 and no longer authenticates at time 86400001. -/
theorem token_expiry_witness :
    get_user_info ⟨[(createTokenNode "tok" 0, ⟨"e@x.y", "n", "p"⟩)]⟩
      86400001 "tok" = none :=
  (token_expiry ⟨[(createTokenNode "tok" 0, ⟨"e@x.y", "n", "p"⟩)]⟩
    86400001 "tok"
    (by
      intro p hp
      simp at hp
      exact ⟨0, by rw [hp]; rfl⟩)
    (by
      intro p hp _
      simp at hp
      rw [hp]
      decide)).2.1

/-- Claim C4 (code bug): the wrapper is documented to support both
    authentication paths, but the Bearer path can never authenticate:
    validate_api_token_user calls the organizations-graph query without
    await, so reading result.result_set raises and its except branch
    returns (None, False) for every token.  A request carrying only a
    valid Bearer token is therefore rejected with 401 instead of being
    authenticated with that token's user info.  The cookie /
    query-parameter path (user_id = base64 of the email) and the
    neither-path 401 behave as the claim says. -/
theorem token_required_bearer_unreachable
    (vat : String → Option String) (g : OrgGraph) (now : Nat)
    (req : Request) (t : String) :
    validate_api_token_user vat t = none ∧
    (req.cookie_api_token = none → req.query_api_token = none →
      token_required vat g now req =
        AuthResult.httpError 401
          "Unauthorized - Please log in or provide a valid API token") ∧
    (∀ info, validate_user g now req = some info →
      base64Encode info.email ≠ "" →
      token_required vat g now req =
        AuthResult.proceed (base64Encode info.email) (Sum.inr info)) := by
  have hdead : ∀ t2, validate_api_token_user vat t2 = none := by
    intro t2
    unfold validate_api_token_user
    split_ifs with h1
    · rfl
    · cases vat t2 <;> simp
  have hbind : (bearerToken req).bind (validate_api_token_user vat) = none := by
    cases bearerToken req with
    | none => rfl
    | some t2 => simpa using hdead t2
  refine ⟨hdead t, ?_, ?_⟩
  · intro hc hq
    have hv : validate_user g now req = none := by
      unfold validate_user
      rw [hc, hq]
      rfl
    unfold token_required
    rw [hbind]
    unfold oauth_fallback
    rw [hv]
  · intro info hv hne
    unfold token_required
    rw [hbind]
    unfold oauth_fallback
    rw [hv]
    simp [hne]

/-- Claim C4 witness: a request carrying the valid Bearer token tok1 (the
    hash lookup resolves it to an email) and no session token is rejected
    with 401 — the failing input — while a cookie request with an
    unexpired session token still proceeds with the base64-encoded
    email. -/
theorem token_required_bearer_unreachable_witness :
    validate_api_token_user (fun s => if s = "tok1" then some "a@b.c" else none)
        "tok1" = none ∧
    token_required (fun s => if s = "tok1" then some "a@b.c" else none)
        ⟨[]⟩ 0 ⟨some "Bearer tok1", none, none⟩ =
      AuthResult.httpError 401
        "Unauthorized - Please log in or provide a valid API token" ∧
    token_required (fun _ => none)
        ⟨[(⟨"ck", 0, 10⟩, ⟨"e@x.y", "n", "p"⟩)]⟩ 5 ⟨none, some "ck", none⟩ =
      AuthResult.proceed (base64Encode "e@x.y") (Sum.inr ⟨"e@x.y", "n", "p"⟩) :=
  ⟨(token_required_bearer_unreachable
      (fun s => if s = "tok1" then some "a@b.c" else none)
      ⟨[]⟩ 0 ⟨some "Bearer tok1", none, none⟩ "tok1").1,
   (token_required_bearer_unreachable
      (fun s => if s = "tok1" then some "a@b.c" else none)
      ⟨[]⟩ 0 ⟨some "Bearer tok1", none, none⟩ "tok1").2.1 rfl rfl,
   (token_required_bearer_unreachable (fun _ => none)
      ⟨[(⟨"ck", 0, 10⟩, ⟨"e@x.y", "n", "p"⟩)]⟩ 5
      ⟨none, some "ck", none⟩ "tok1").2.2 ⟨"e@x.y", "n", "p"⟩
      (by decide) (by decide)⟩

/-- The two per-table formatters are the same function (the bodies are
    line-for-line identical in the two Python files). -/
theorem formatTable_eq : formatTableFollowUp = formatTableOriginal := rfl

/-- The head character of a non-empty join is the head character of its
    first part. -/
theorem pyJoin_head (sep a : String) (l : List String) (ch : Char)
    (h : a.data.head? = some ch) :
    (pyJoin sep (a :: l)).data.head? = some ch := by
  cases l with
  | nil => exact h
  | cons b bs => exact data_head?_append _ _ _ (data_head?_append _ _ _ h)

/-- Every formatted table block starts with the character T. -/
theorem formatTableFollowUp_head (t : TableInfo) :
    (formatTableFollowUp t).data.head? = some 'T' :=
  data_head?_append _ _ _ (data_head?_append _ _ _ (data_head?_append _ _ _
    (data_head?_append _ _ _ (data_head?_append _ _ _
      (data_head?_append _ _ _ (by decide))))))

/-- Claim C7 counterexample: on the empty schema list the two
    implementations disagree, so they are not identical for every schema
    list: FollowUpAgent._format_schema returns "No relevant tables found"
    while original_format_schema returns the empty string. -/
theorem format_schema_empty_ne :
    format_schema [] ≠ original_format_schema [] := by
  decide

/-- Claim C7 (amended): for every non-empty schema list in the documented
    shape, FollowUpAgent._format_schema returns a string identical to the
    reference implementation original_format_schema, and it returns
    "No relevant tables found" exactly when the schema list is empty; on
    the empty list the reference implementation instead returns "". -/
theorem format_schema_refines (sd : List TableInfo) (h : sd ≠ []) :
    format_schema sd = original_format_schema sd ∧
    (∀ sd2 : List TableInfo,
      format_schema sd2 = "No relevant tables found" ↔ sd2 = []) ∧
    original_format_schema [] = "" := by
  refine ⟨?_, ?_, rfl⟩
  · unfold format_schema original_format_schema
    rw [if_neg h, formatTable_eq]
  · intro sd2
    constructor
    · intro heq
      by_contra hne2
      cases sd2 with
      | nil => exact hne2 rfl
      | cons t ts =>
          have h1 : (format_schema (t :: ts)).data.head? = some 'T' := by
            unfold format_schema
            rw [if_neg (by simp)]
            exact pyJoin_head _ _ _ _ (formatTableFollowUp_head t)
          rw [heq] at h1
          exact absurd h1 (by decide)
    · intro h2
      subst h2
      rfl

/-- Claim C7 witness: on the schema of test_refactor.py the two
    implementations agree, and the empty-schema sentinel holds. -/
theorem format_schema_refines_witness :
    format_schema [⟨"users", "User information table",
        FKData.dict [("fk_dept", ⟨"dept_id", "departments", "id"⟩)],
        [⟨"id", some "int", "User ID", some "PRI", false⟩,
         ⟨"name", some "varchar", "User name", none, false⟩,
         ⟨"dept_id", some "int", "Department ID", some "FK", true⟩]⟩] =
      original_format_schema [⟨"users", "User information table",
        FKData.dict [("fk_dept", ⟨"dept_id", "departments", "id"⟩)],
        [⟨"id", some "int", "User ID", some "PRI", false⟩,
         ⟨"name", some "varchar", "User name", none, false⟩,
         ⟨"dept_id", some "int", "Department ID", some "FK", true⟩]⟩] ∧
    (format_schema [] = "No relevant tables found" ↔
      ([] : List TableInfo) = []) :=
  ⟨(format_schema_refines [⟨"users", "User information table",
      FKData.dict [("fk_dept", ⟨"dept_id", "departments", "id"⟩)],
      [⟨"id", some "int", "User ID", some "PRI", false⟩,
       ⟨"name", some "varchar", "User name", none, false⟩,
       ⟨"dept_id", some "int", "Department ID", some "FK", true⟩]⟩]
      (by decide)).1,
   (format_schema_refines [⟨"users", "User information table",
      FKData.dict [("fk_dept", ⟨"dept_id", "departments", "id"⟩)],
      [⟨"id", some "int", "User ID", some "PRI", false⟩,
       ⟨"name", some "varchar", "User name", none, false⟩,
       ⟨"dept_id", some "int", "Department ID", some "FK", true⟩]⟩]
      (by decide)).2.1 []⟩

end QueryWeaver
